import Mathlib

/-!
Shallow embedding of `src/collector/src/track_speed.py` (the speedtracker
collector).  Python values parsed from JSON are modelled by `JsonValue`,
Python exceptions by `PyError`, and the observable behaviour of each
function (log lines printed, database actions attempted, normal return or
raised exception) by the `Effects` structure.  The external speedtest
process and the PostgreSQL database are modelled by the `SpawnOutcome` and
`DbBehavior` parameters, since both are outside the repository.
-/

/-- A JSON value as produced by Python's `json.loads`: `null` is Python
`None`, objects keep their field list (last binding wins on lookup, as in
`json.loads`). -/
inductive JsonValue : Type where
  | null : JsonValue
  | bool : Bool → JsonValue
  | num : ℚ → JsonValue
  | str : String → JsonValue
  | arr : List JsonValue → JsonValue
  | obj : List (String × JsonValue) → JsonValue


/-- Python truthiness (`if not data:`) restricted to JSON-derived values:
`None`, `False`, `0`, `""`, `[]` and `{}` are falsy, everything else truthy. -/
def pyFalsy : JsonValue → Bool
  | .null => true
  | .bool b => !b
  | .num q => q == 0
  | .str s => s.isEmpty
  | .arr xs => xs.isEmpty
  | .obj fs => fs.isEmpty

/-- Python exceptions that can arise in a collector cycle.  All of these are
`Exception` subclasses in Python (so the script's `except (Exception,
psycopg2.Error)` and `except Exception` clauses catch every one of them). -/
inductive PyError : Type where
  | keyError : String → PyError
  | typeError : PyError
  | calledProcessError : Nat → String → PyError
  | jsonDecodeError : PyError
  | psycopgError : String → PyError
  | fileNotFoundError : PyError


/-- Rendering of an exception for f-string interpolation in log lines. -/
def pyErrShow : PyError → String
  | .keyError k => "KeyError: " ++ k
  | .typeError => "TypeError"
  | .calledProcessError c s =>
      "Command returned non-zero exit status " ++ toString c ++ ": " ++ s
  | .jsonDecodeError => "Expecting value"
  | .psycopgError m => m
  | .fileNotFoundError => "[Errno 2] No such file or directory: 'speedtest'"

/-- The process-wide configuration read from the environment at startup.
`db_port` is a plain `String` because `os.getenv("DB_PORT", "5432")`
always yields a string. -/
structure Config : Type where
  db_name : Option String
  db_user : Option String
  db_password : Option String
  db_host : Option String
  db_port : String


/-- Truthiness of an `os.getenv` result (`None` and `""` are falsy). -/
def optTruthy : Option String → Bool
  | none => false
  | some s => !s.isEmpty

/-- The `all([DB_NAME, DB_USER, DB_PASSWORD, DB_HOST, DB_PORT])` check of
`store_results`. -/
def configComplete (c : Config) : Bool :=
  optTruthy c.db_name && optTruthy c.db_user && optTruthy c.db_password &&
    optTruthy c.db_host && !c.db_port.isEmpty

/-- One attempted side effect on the database: a connection attempt with the
configured parameters, or the execution of the parameterized INSERT. -/
inductive DbAction : Type where
  | connect : Config → DbAction
  | insert : String → ℚ → ℚ → JsonValue → JsonValue → JsonValue → DbAction


/-- Observable behaviour of a piece of the script: the log lines it prints,
the database actions it attempts, and either a normal return value or an
uncaught Python exception. -/
structure Effects (α : Type) : Type where
  logs : List String
  actions : List DbAction
  result : Except PyError α


/-- Sequencing of two effectful steps: an uncaught exception in the first
step aborts the second (Python control flow). -/
def Effects.bind {α β : Type} (x : Effects α) (f : α → Effects β) : Effects β :=
  match x.result with
  | .error e => ⟨x.logs, x.actions, .error e⟩
  | .ok a => ⟨x.logs ++ (f a).logs, x.actions ++ (f a).actions, (f a).result⟩

/-- A single `print` call. -/
def elog (s : String) : Effects Unit := ⟨[s], [], .ok ()⟩

/-- A Python `try`/`except Exception` boundary: a raised exception is
converted into one log line (via `msg`) and a normal return. -/
def catchLogged (msg : PyError → String) (x : Effects Unit) : Effects Unit :=
  match x.result with
  | .ok _ => ⟨x.logs, x.actions, .ok ()⟩
  | .error e => ⟨x.logs ++ [msg e], x.actions, .ok ()⟩

/-- Python subscription `v[k]`: a `KeyError` on a dict without the key, a
`TypeError` on any non-dict JSON value (later bindings shadow earlier ones,
as in `json.loads`). -/
def getItem (v : JsonValue) (k : String) : Except PyError JsonValue :=
  match v with
  | .obj fields =>
      match fields.reverse.lookup k with
      | some w => .ok w
      | none => .error (.keyError k)
  | _ => .error .typeError

/-- Two-level subscription `v[a][b]`. -/
def getPath2 (v : JsonValue) (a b : String) : Except PyError JsonValue :=
  match getItem v a with
  | .error e => .error e
  | .ok w => getItem w b

/-- Numeric coercion used by `bandwidth * 8 / 1_000_000`: Python ints,
floats and bools are numbers; anything else raises a `TypeError` when the
arithmetic is attempted. -/
def asNum : JsonValue → Except PyError ℚ
  | .num q => .ok q
  | .bool b => .ok (if b then 1 else 0)
  | _ => .error .typeError

/-- The five values computed by `store_results` before connecting. -/
structure Row : Type where
  download_mbps : ℚ
  upload_mbps : ℚ
  ping_ms : JsonValue
  server_name : JsonValue
  server_location : JsonValue


/-- The field-extraction block of `store_results` (lines 66-70 of the
script), in the script's evaluation order:
`download_mbps = data['download']['bandwidth'] * 8 / 1_000_000`,
the same for upload, then `ping_ms = data['ping']['latency']`,
`server_name = data['server']['name']`,
`server_location = data['server']['location']`. -/
def extract (data : JsonValue) : Except PyError Row :=
  match getPath2 data "download" "bandwidth" with
  | .error e => .error e
  | .ok dlb =>
    match asNum dlb with
    | .error e => .error e
    | .ok dlq =>
      match getPath2 data "upload" "bandwidth" with
      | .error e => .error e
      | .ok ulb =>
        match asNum ulb with
        | .error e => .error e
        | .ok ulq =>
          match getPath2 data "ping" "latency" with
          | .error e => .error e
          | .ok ping =>
            match getPath2 data "server" "name" with
            | .error e => .error e
            | .ok name =>
              match getPath2 data "server" "location" with
              | .error e => .error e
              | .ok loc =>
                .ok ⟨dlq * 8 / 1000000, ulq * 8 / 1000000, ping, name, loc⟩

/-- Behaviour of the PostgreSQL side for one cycle: the connection attempt
may fail (connection or authentication error), the INSERT may fail
(constraint or insert error), or everything succeeds. -/
inductive DbBehavior : Type where
  | ok : DbBehavior
  | connectFails : String → DbBehavior
  | insertFails : String → DbBehavior


/-- Rendering a JSON scalar for a log line. -/
def jsonShow : JsonValue → String
  | .null => "None"
  | .bool b => if b then "True" else "False"
  | .num q => toString q
  | .str s => s
  | .arr _ => "[...]"
  | .obj _ => "\x7b...\x7d"

/-- The success log line of `store_results`. -/
def successLog (r : Row) : String :=
  "Successfully stored result: DL: " ++ toString r.download_mbps ++
    " Mbps, UL: " ++ toString r.upload_mbps ++ " Mbps, Ping: " ++
    jsonShow r.ping_ms ++ " ms"

/-- The log line of the `except (Exception, psycopg2.Error)` clause. -/
def errorWhileLog (e : PyError) : String :=
  "Error while connecting to PostgreSQL or inserting data: " ++ pyErrShow e

/-- The body of the `try` block of `store_results`: field extraction, then
`psycopg2.connect`, then the single parameterized INSERT into
`tracker.speed_result`.  Any failure raises. -/
def store_body (cfg : Config) (db : DbBehavior) (data : JsonValue) :
    Effects Unit :=
  match extract data with
  | .error e => ⟨[], [], .error e⟩
  | .ok row =>
      match db with
      | .connectFails m => ⟨[], [.connect cfg], .error (.psycopgError m)⟩
      | .insertFails m =>
          ⟨[], [.connect cfg,
                .insert "tracker.speed_result" row.download_mbps
                  row.upload_mbps row.ping_ms row.server_name
                  row.server_location],
            .error (.psycopgError m)⟩
      | .ok =>
          ⟨[successLog row],
            [.connect cfg,
             .insert "tracker.speed_result" row.download_mbps row.upload_mbps
               row.ping_ms row.server_name row.server_location],
            .ok ()⟩

/-- `store_results(data)`: early return on falsy data, early return on
incomplete configuration, otherwise the `try` body with its catch-all
`except` clause. -/
def store_results (cfg : Config) (db : DbBehavior) (data : JsonValue) :
    Effects Unit :=
  if pyFalsy data then ⟨["No data to store."], [], .ok ()⟩
  else if !configComplete cfg then
    ⟨["Database configuration is incomplete. Check environment variables."],
      [], .ok ()⟩
  else catchLogged errorWhileLog (store_body cfg db data)

/-- Behaviour of one invocation of the external speedtest utility:
`success stdout` is an exit status of zero (with `stdout` the result of
`json.loads` — `none` when the output is not valid JSON), `nonZeroExit` is
a `subprocess.CalledProcessError`, and `spawnError` is a failure of
`subprocess.run` itself (e.g. the `speedtest` binary is absent, raising
`FileNotFoundError`). -/
inductive SpawnOutcome : Type where
  | success : Option JsonValue → SpawnOutcome
  | nonZeroExit : Nat → String → SpawnOutcome
  | spawnError : SpawnOutcome


/-- The `STDERR from speedtest command` log block. -/
def stderrLog (s : String) : String :=
  "STDERR from speedtest command:\n---_BEGIN_STDERR_---\n" ++ s ++
    "\n---_END_STDERR_---"

/-- `run_speed_test()`: runs the CLI and returns the parsed JSON output;
returns `None` (here `JsonValue.null`) after logging on a non-zero exit or
a JSON decode error.  Only `subprocess.CalledProcessError` and
`json.JSONDecodeError` are caught: a spawn failure raises through. -/
def run_speed_test : SpawnOutcome → Effects JsonValue
  | .success none =>
      ⟨["Running speed test...", "Speed test completed.",
        "Error parsing JSON output: " ++ pyErrShow .jsonDecodeError],
        [], .ok .null⟩
  | .success (some v) =>
      ⟨["Running speed test...", "Speed test completed."], [], .ok v⟩
  | .nonZeroExit code stderr =>
      ⟨["Running speed test...",
        "Error running speedtest: " ++
          pyErrShow (.calledProcessError code stderr),
        stderrLog stderr], [], .ok .null⟩
  | .spawnError => ⟨["Running speed test..."], [], .error .fileNotFoundError⟩

/-- `run_speed_test_job()`: one full cycle — run the speed test, then
unconditionally pass whatever it returned to `store_results`. -/
def run_speed_test_job (cfg : Config) (db : DbBehavior) (o : SpawnOutcome) :
    Effects Unit :=
  Effects.bind (elog "Scheduler starting speed test job...") (fun _ =>
    Effects.bind (run_speed_test o) (fun data =>
      Effects.bind (store_results cfg db data) (fun _ =>
        elog "Speed test job finished.")))

/-- The steady-state scheduler loop (`while True: schedule.run_pending()`),
applied to the finite list of cycles that come due.  The `schedule` library
does not catch job exceptions, so an uncaught exception in a scheduled
cycle propagates and terminates the loop. -/
def scheduler_loop (cfg : Config) :
    List (SpawnOutcome × DbBehavior) → Effects Unit
  | [] => ⟨[], [], .ok ()⟩
  | c :: rest =>
      Effects.bind (run_speed_test_job cfg c.2 c.1) (fun _ =>
        scheduler_loop cfg rest)

/-- The `try`/`except Exception` boundary around the initial (primer) run. -/
def primerCatch (x : Effects Unit) : Effects Unit :=
  catchLogged (fun e => "Initial run failed: " ++ pyErrShow e) x

/-- The startup banner printed at import time. -/
def configBanner (cfg : Config) : String :=
  "Database: " ++ (cfg.db_user.getD "None") ++ ":" ++
    (cfg.db_password.getD "None") ++ "@" ++ (cfg.db_host.getD "None") ++
    ":" ++ cfg.db_port ++ " " ++ (cfg.db_name.getD "None")

/-- The `__main__` block: banner and startup logs, one failure-isolated
primer cycle, then the scheduler loop over the cycles that come due. -/
def main_program (cfg : Config) (primer : SpawnOutcome × DbBehavior)
    (cycles : List (SpawnOutcome × DbBehavior)) : Effects Unit :=
  Effects.bind (elog (configBanner cfg)) (fun _ =>
    Effects.bind (elog "ISP Tracker Collector starting up.") (fun _ =>
      Effects.bind
        (elog "Job scheduled to run every 5 minutes. Waiting for the first run...")
        (fun _ =>
          Effects.bind (primerCatch (run_speed_test_job cfg primer.2 primer.1))
            (fun _ => scheduler_loop cfg cycles))))

/-- Whether an extraction step succeeded. -/
def exOk {α : Type} : Except PyError α → Bool
  | .ok _ => true
  | .error _ => false

/-- All five fields expected by `store_results` are present in the parsed
output. -/
def fieldsPresent (v : JsonValue) : Bool :=
  exOk (getPath2 v "download" "bandwidth") &&
    exOk (getPath2 v "upload" "bandwidth") &&
    exOk (getPath2 v "ping" "latency") &&
    exOk (getPath2 v "server" "name") &&
    exOk (getPath2 v "server" "location")

/-- A complete configuration used for concrete instances. -/
def cfgEx : Config :=
  ⟨some "tracker", some "postgres", some "secret", some "db", "5432"⟩

/-- The example utility output of the specification. -/
def exampleInput : JsonValue :=
  .obj [("download", .obj [("bandwidth", .num 12500000)]),
        ("upload", .obj [("bandwidth", .num 1250000)]),
        ("ping", .obj [("latency", .num 14.2)]),
        ("server", .obj [("name", .str "ISP Node A"),
                         ("location", .str "CityX")])]

/-- A parsed utility output that is missing the `server` field. -/
def missingServerInput : JsonValue :=
  .obj [("download", .obj [("bandwidth", .num 12500000)]),
        ("upload", .obj [("bandwidth", .num 1250000)]),
        ("ping", .obj [("latency", .num 14)])]

/-! ## Helper lemmas -/

theorem bind_of_ok {α β : Type} (x : Effects α) (f : α → Effects β) (a : α)
    (h : x.result = Except.ok a) :
    Effects.bind x f =
      ⟨x.logs ++ (f a).logs, x.actions ++ (f a).actions, (f a).result⟩ := by
  unfold Effects.bind
  rw [h]

theorem bind_of_error {α β : Type} (x : Effects α) (f : α → Effects β)
    (e : PyError) (h : x.result = Except.error e) :
    Effects.bind x f = ⟨x.logs, x.actions, Except.error e⟩ := by
  unfold Effects.bind
  rw [h]

theorem catchLogged_result (msg : PyError → String) (x : Effects Unit) :
    (catchLogged msg x).result = Except.ok () := by
  unfold catchLogged
  split <;> rfl

theorem primerCatch_result (x : Effects Unit) :
    (primerCatch x).result = Except.ok () :=
  catchLogged_result _ x

theorem store_results_result (cfg : Config) (db : DbBehavior)
    (data : JsonValue) : (store_results cfg db data).result = Except.ok () := by
  unfold store_results
  split
  · rfl
  · split
    · rfl
    · exact catchLogged_result _ _

theorem run_speed_test_job_result (cfg : Config) (db : DbBehavior)
    (o : SpawnOutcome) (h : o ≠ SpawnOutcome.spawnError) :
    (run_speed_test_job cfg db o).result = Except.ok () := by
  unfold run_speed_test_job
  rw [bind_of_ok _ _ () rfl]
  cases o with
  | success p =>
      cases p with
      | none =>
          simp only [run_speed_test]
          rw [bind_of_ok _ _ JsonValue.null rfl,
            bind_of_ok _ _ () (store_results_result cfg db JsonValue.null)]
          rfl
      | some v =>
          simp only [run_speed_test]
          rw [bind_of_ok _ _ v rfl,
            bind_of_ok _ _ () (store_results_result cfg db v)]
          rfl
  | nonZeroExit c s =>
      simp only [run_speed_test]
      rw [bind_of_ok _ _ JsonValue.null rfl,
        bind_of_ok _ _ () (store_results_result cfg db JsonValue.null)]
      rfl
  | spawnError => exact absurd rfl h

theorem extract_ok_parts {v : JsonValue} {row : Row}
    (h : extract v = Except.ok row) :
    ∃ dlb dlq ulb ulq ping sname sloc,
      getPath2 v "download" "bandwidth" = Except.ok dlb ∧
      asNum dlb = Except.ok dlq ∧
      getPath2 v "upload" "bandwidth" = Except.ok ulb ∧
      asNum ulb = Except.ok ulq ∧
      getPath2 v "ping" "latency" = Except.ok ping ∧
      getPath2 v "server" "name" = Except.ok sname ∧
      getPath2 v "server" "location" = Except.ok sloc ∧
      row = ⟨dlq * 8 / 1000000, ulq * 8 / 1000000, ping, sname, sloc⟩ := by
  unfold extract at h
  split at h
  next e heq => exact Except.noConfusion h
  next dlb h1 =>
    split at h
    next e heq => exact Except.noConfusion h
    next dlq h2 =>
      split at h
      next e heq => exact Except.noConfusion h
      next ulb h3 =>
        split at h
        next e heq => exact Except.noConfusion h
        next ulq h4 =>
          split at h
          next e heq => exact Except.noConfusion h
          next ping h5 =>
            split at h
            next e heq => exact Except.noConfusion h
            next sname h6 =>
              split at h
              next e heq => exact Except.noConfusion h
              next sloc h7 =>
                exact ⟨dlb, dlq, ulb, ulq, ping, sname, sloc, h1, h2, h3,
                  h4, h5, h6, h7, (Except.ok.inj h).symm⟩

theorem getPath2_ok_left {v : JsonValue} {a b : String} {w : JsonValue}
    (h : getPath2 v a b = Except.ok w) : ∃ u, getItem v a = Except.ok u := by
  unfold getPath2 at h
  split at h
  next e heq => exact Except.noConfusion h
  next u heq => exact ⟨u, heq⟩

theorem getItem_ok_pyFalsy {v : JsonValue} {k : String} {w : JsonValue}
    (h : getItem v k = Except.ok w) : pyFalsy v = false := by
  unfold getItem at h
  cases v with
  | obj fs =>
      cases fs with
      | nil => simp [List.lookup] at h
      | cons p ps => simp [pyFalsy]
  | null => exact Except.noConfusion h
  | bool b => exact Except.noConfusion h
  | num q => exact Except.noConfusion h
  | str s => exact Except.noConfusion h
  | arr xs => exact Except.noConfusion h

theorem extract_ok_pyFalsy {v : JsonValue} {row : Row}
    (h : extract v = Except.ok row) : pyFalsy v = false := by
  obtain ⟨dlb, _, _, _, _, _, _, h1, -⟩ := extract_ok_parts h
  obtain ⟨u, hu⟩ := getPath2_ok_left h1
  exact getItem_ok_pyFalsy hu

theorem extract_ok_fieldsPresent {v : JsonValue} {row : Row}
    (h : extract v = Except.ok row) : fieldsPresent v = true := by
  obtain ⟨dlb, dlq, ulb, ulq, ping, sname, sloc, h1, h2, h3, h4, h5, h6, h7,
    hrow⟩ := extract_ok_parts h
  simp [fieldsPresent, h1, h3, h5, h6, h7, exOk]

theorem store_results_falsy (cfg : Config) (db : DbBehavior) (v : JsonValue)
    (h : pyFalsy v = true) :
    store_results cfg db v = ⟨["No data to store."], [], Except.ok ()⟩ := by
  simp [store_results, h]

theorem store_results_incomplete (cfg : Config) (db : DbBehavior)
    (v : JsonValue) (h1 : pyFalsy v = false) (h2 : configComplete cfg = false) :
    store_results cfg db v =
      ⟨["Database configuration is incomplete. Check environment variables."],
        [], Except.ok ()⟩ := by
  simp [store_results, h1, h2]

theorem store_results_extract_error (cfg : Config) (db : DbBehavior)
    (v : JsonValue) (e : PyError) (h1 : pyFalsy v = false)
    (h2 : configComplete cfg = true) (h3 : extract v = Except.error e) :
    store_results cfg db v = ⟨[errorWhileLog e], [], Except.ok ()⟩ := by
  simp [store_results, h1, h2, store_body, h3, catchLogged]

theorem store_results_success (cfg : Config) (v : JsonValue) (row : Row)
    (h2 : configComplete cfg = true) (h3 : extract v = Except.ok row) :
    store_results cfg DbBehavior.ok v =
      ⟨[successLog row],
        [DbAction.connect cfg,
         DbAction.insert "tracker.speed_result" row.download_mbps
           row.upload_mbps row.ping_ms row.server_name row.server_location],
        Except.ok ()⟩ := by
  have h1 : pyFalsy v = false := extract_ok_pyFalsy h3
  simp [store_results, h1, h2, store_body, h3, catchLogged]

theorem extract_bandwidth_values {v : JsonValue} {row : Row} {b u : ℚ}
    (h : extract v = Except.ok row)
    (hb : getPath2 v "download" "bandwidth" = Except.ok (JsonValue.num b))
    (hu : getPath2 v "upload" "bandwidth" = Except.ok (JsonValue.num u)) :
    row.download_mbps = b * 8 / 1000000 ∧
      row.upload_mbps = u * 8 / 1000000 := by
  obtain ⟨dlb, dlq, ulb, ulq, ping, sname, sloc, h1, h2, h3, h4, h5, h6, h7,
    hrow⟩ := extract_ok_parts h
  have hdlb : dlb = JsonValue.num b := Except.ok.inj (h1.symm.trans hb)
  have hulb : ulb = JsonValue.num u := Except.ok.inj (h3.symm.trans hu)
  subst hdlb hulb
  have hdlq : dlq = b := Except.ok.inj h2.symm
  have hulq : ulq = u := Except.ok.inj h4.symm
  subst hdlq hulq
  rw [hrow]
  exact ⟨rfl, rfl⟩

theorem main_program_decomp (cfg : Config) (p : SpawnOutcome × DbBehavior)
    (cycles : List (SpawnOutcome × DbBehavior)) :
    main_program cfg p cycles =
      ⟨configBanner cfg :: "ISP Tracker Collector starting up." ::
        "Job scheduled to run every 5 minutes. Waiting for the first run..." ::
        ((primerCatch (run_speed_test_job cfg p.2 p.1)).logs ++
          (scheduler_loop cfg cycles).logs),
       (primerCatch (run_speed_test_job cfg p.2 p.1)).actions ++
         (scheduler_loop cfg cycles).actions,
       (scheduler_loop cfg cycles).result⟩ := by
  unfold main_program
  rw [bind_of_ok _ _ () rfl, bind_of_ok _ _ () rfl, bind_of_ok _ _ () rfl,
    bind_of_ok _ _ () (primerCatch_result _)]
  simp [elog]

/-- The stored row of the specification's example. -/
def exampleRow : Row :=
  ⟨100, 10, .num 14.2, .str "ISP Node A", .str "CityX"⟩

/-- A configuration with the database name missing. -/
def cfgIncomplete : Config :=
  ⟨none, some "postgres", some "secret", some "db", "5432"⟩

theorem extract_example : extract exampleInput = Except.ok exampleRow := by
  have h : extract exampleInput =
      Except.ok ⟨(12500000 : ℚ) * 8 / 1000000, (1250000 : ℚ) * 8 / 1000000,
        JsonValue.num 14.2, JsonValue.str "ISP Node A",
        JsonValue.str "CityX"⟩ := rfl
  rw [h]
  unfold exampleRow
  norm_num

/-! ## Claims -/

/-- C1: for every successful utility output with `download.bandwidth = B`
and `upload.bandwidth = U` (bytes/sec), the computed `download_mbps` is
`B * 8 / 1_000_000` and `upload_mbps` is `U * 8 / 1_000_000`; in
particular the specification's example input yields the stored row
`(100.0, 10.0, 14.2, "ISP Node A", "CityX")`. -/
theorem spec_c1_mbps_conversion :
    (∀ (v : JsonValue) (row : Row) (b u : ℚ),
        extract v = Except.ok row →
        getPath2 v "download" "bandwidth" = Except.ok (JsonValue.num b) →
        getPath2 v "upload" "bandwidth" = Except.ok (JsonValue.num u) →
        row.download_mbps = b * 8 / 1000000 ∧
          row.upload_mbps = u * 8 / 1000000) ∧
    extract exampleInput = Except.ok exampleRow ∧
    store_results cfgEx DbBehavior.ok exampleInput =
      ⟨[successLog exampleRow],
        [DbAction.connect cfgEx,
         DbAction.insert "tracker.speed_result" 100 10 (JsonValue.num 14.2)
           (JsonValue.str "ISP Node A") (JsonValue.str "CityX")],
        Except.ok ()⟩ := by
  refine ⟨fun v row b u h hb hu => extract_bandwidth_values h hb hu,
    extract_example, ?_⟩
  rw [store_results_success cfgEx exampleInput exampleRow rfl extract_example]
  rfl

/-- Witness for C1 at the specification's example input. -/
theorem spec_c1_witness :
    exampleRow.download_mbps = 12500000 * 8 / 1000000 ∧
      exampleRow.upload_mbps = 1250000 * 8 / 1000000 :=
  spec_c1_mbps_conversion.1 exampleInput exampleRow 12500000 1250000
    extract_example rfl rfl

theorem store_results_error_actions (cfg : Config) (db : DbBehavior)
    (v : JsonValue) (e : PyError) (h3 : extract v = Except.error e) :
    (store_results cfg db v).actions = [] := by
  by_cases h1 : pyFalsy v = true
  · rw [store_results_falsy cfg db v h1]
  · by_cases h2 : configComplete cfg = true
    · rw [store_results_extract_error cfg db v e
        (Bool.not_eq_true _ ▸ h1) h2 h3]
    · rw [store_results_incomplete cfg db v (Bool.not_eq_true _ ▸ h1)
        (Bool.not_eq_true _ ▸ h2)]

theorem run_speed_test_job_parsed_actions (cfg : Config) (db : DbBehavior)
    (v : JsonValue) :
    (run_speed_test_job cfg db (SpawnOutcome.success (some v))).actions =
      (store_results cfg db v).actions := by
  unfold run_speed_test_job
  rw [bind_of_ok _ _ () rfl]
  simp only [run_speed_test]
  rw [bind_of_ok _ _ v rfl,
    bind_of_ok _ _ () (store_results_result cfg db v)]
  simp [elog]

/-- C2 counterexample: the parsed output `missingServerInput` is missing
the expected `server` field, yet `run_speed_test` does not treat it as a
parse failure — it returns the partial data unchanged, with no error
result and no parse-failure log line. -/
theorem spec_c2_counterexample :
    run_speed_test (SpawnOutcome.success (some missingServerInput)) =
      ⟨["Running speed test...", "Speed test completed."], [],
        Except.ok missingServerInput⟩ ∧
    getItem missingServerInput "server" =
      Except.error (PyError.keyError "server") ∧
    missingServerInput ≠ JsonValue.null := by
  refine ⟨rfl, rfl, ?_⟩
  unfold missingServerInput
  exact fun h => JsonValue.noConfusion h

/-- C2 amended: a parsed utility output missing an expected field is
returned unchanged by `run_speed_test` (not surfaced there as a parse
failure); the missing field raises during extraction inside
`store_results`, whose catch-all handler logs it, so the cycle completes
without crashing, with no row constructed and no database action. -/
theorem spec_c2_amended :
    ∀ (cfg : Config) (db : DbBehavior) (v : JsonValue) (e : PyError),
      extract v = Except.error e →
      run_speed_test (SpawnOutcome.success (some v)) =
        ⟨["Running speed test...", "Speed test completed."], [],
          Except.ok v⟩ ∧
      (run_speed_test_job cfg db (SpawnOutcome.success (some v))).result =
        Except.ok () ∧
      (run_speed_test_job cfg db (SpawnOutcome.success (some v))).actions =
        [] := by
  intro cfg db v e h
  refine ⟨rfl, run_speed_test_job_result cfg db _ (fun hc =>
    SpawnOutcome.noConfusion hc), ?_⟩
  rw [run_speed_test_job_parsed_actions cfg db v]
  exact store_results_error_actions cfg db v e h

/-- Witness for the amended C2 at the output missing its `server` field. -/
theorem spec_c2_witness :
    (run_speed_test_job cfgEx DbBehavior.ok
        (SpawnOutcome.success (some missingServerInput))).result =
      Except.ok () ∧
    (run_speed_test_job cfgEx DbBehavior.ok
        (SpawnOutcome.success (some missingServerInput))).actions = [] :=
  ⟨(spec_c2_amended cfgEx DbBehavior.ok missingServerInput
      (PyError.keyError "server") rfl).2.1,
   (spec_c2_amended cfgEx DbBehavior.ok missingServerInput
      (PyError.keyError "server") rfl).2.2⟩

/-- C3 counterexample: an error outside the taxonomy — a failure of
`subprocess.run` itself, such as the speedtest binary being absent
(`FileNotFoundError`) — arising in a scheduled cycle is caught by no
boundary: it propagates out of the scheduler loop and terminates the
process, contradicting the claim that no error in a cycle can do so. -/
theorem spec_c3_counterexample :
    (scheduler_loop cfgEx [(SpawnOutcome.spawnError, DbBehavior.ok)]).result =
      Except.error PyError.fileNotFoundError := rfl

/-- C3 amended: each of the four taxonomy error kinds (ProcessFailed,
ParseFailed, ConfigIncomplete, PersistenceFailed) is caught at the boundary
of the component that produced it, so every cycle whose utility invocation
does not itself fail to spawn completes without an uncaught exception; an
error outside the taxonomy (a spawn failure of the utility process)
escapes a scheduled cycle, and only the primer cycle's outer isolation
boundary contains every error. -/
theorem spec_c3_amended :
    ∀ (cfg : Config) (db : DbBehavior),
      (∀ o : SpawnOutcome, o ≠ SpawnOutcome.spawnError →
        (run_speed_test_job cfg db o).result = Except.ok ()) ∧
      (∀ o : SpawnOutcome,
        (primerCatch (run_speed_test_job cfg db o)).result = Except.ok ()) :=
  fun cfg db =>
    ⟨fun o h => run_speed_test_job_result cfg db o h,
     fun _ => primerCatch_result _⟩

/-- Witness for the amended C3 at a non-zero-exit cycle. -/
theorem spec_c3_witness :
    (run_speed_test_job cfgEx DbBehavior.ok
        (SpawnOutcome.nonZeroExit 1 "socket timeout")).result =
      Except.ok () :=
  (spec_c3_amended cfgEx DbBehavior.ok).1
    (SpawnOutcome.nonZeroExit 1 "socket timeout")
    (fun h => SpawnOutcome.noConfusion h)

/-- C4: on a non-zero exit of the utility, `run_speed_test` returns `None`,
`store_results` is still invoked with that no-result (its "No data to
store." line appears in the cycle's log), it returns at once, and the
whole cycle performs no database action. -/
theorem spec_c4_nonzero_exit :
    ∀ (cfg : Config) (db : DbBehavior) (code : Nat) (stderr : String),
      (run_speed_test (SpawnOutcome.nonZeroExit code stderr)).result =
        Except.ok JsonValue.null ∧
      store_results cfg db JsonValue.null =
        ⟨["No data to store."], [], Except.ok ()⟩ ∧
      run_speed_test_job cfg db (SpawnOutcome.nonZeroExit code stderr) =
        ⟨["Scheduler starting speed test job...", "Running speed test...",
          "Error running speedtest: " ++
            pyErrShow (PyError.calledProcessError code stderr),
          stderrLog stderr, "No data to store.", "Speed test job finished."],
          [], Except.ok ()⟩ := by
  intro cfg db code stderr
  refine ⟨rfl, store_results_falsy cfg db JsonValue.null rfl, ?_⟩
  unfold run_speed_test_job
  rw [bind_of_ok _ _ () rfl]
  simp only [run_speed_test]
  rw [bind_of_ok _ _ JsonValue.null rfl,
    bind_of_ok _ _ () (store_results_result cfg db JsonValue.null),
    store_results_falsy cfg db JsonValue.null rfl]
  simp [elog]

/-- C5: given a successful measurement (all five fields extracted) and a
complete configuration, the store step performs exactly one connection and
one parameterized INSERT into `tracker.speed_result` whose five values are
exactly the derived fields; nothing else is written. -/
theorem spec_c5_single_insert :
    ∀ (cfg : Config) (v : JsonValue) (row : Row),
      configComplete cfg = true →
      extract v = Except.ok row →
      store_results cfg DbBehavior.ok v =
        ⟨[successLog row],
          [DbAction.connect cfg,
           DbAction.insert "tracker.speed_result" row.download_mbps
             row.upload_mbps row.ping_ms row.server_name
             row.server_location],
          Except.ok ()⟩ :=
  fun cfg v row h2 h3 => store_results_success cfg v row h2 h3

/-- Witness for C5 at the specification's example input. -/
theorem spec_c5_witness :
    store_results cfgEx DbBehavior.ok exampleInput =
      ⟨[successLog exampleRow],
        [DbAction.connect cfgEx,
         DbAction.insert "tracker.speed_result" exampleRow.download_mbps
           exampleRow.upload_mbps exampleRow.ping_ms exampleRow.server_name
           exampleRow.server_location],
        Except.ok ()⟩ :=
  spec_c5_single_insert cfgEx exampleInput exampleRow rfl extract_example

/-- C6: given a successful measurement but a missing required connection
parameter, the store step makes no connection attempt and returns after
logging only the incomplete-configuration line. -/
theorem spec_c6_incomplete_config :
    ∀ (cfg : Config) (db : DbBehavior) (v : JsonValue) (row : Row),
      configComplete cfg = false →
      extract v = Except.ok row →
      store_results cfg db v =
        ⟨["Database configuration is incomplete. Check environment variables."],
          [], Except.ok ()⟩ :=
  fun cfg db v _row h2 h3 =>
    store_results_incomplete cfg db v (extract_ok_pyFalsy h3) h2

/-- Witness for C6 with the database name unset. -/
theorem spec_c6_witness :
    store_results cfgIncomplete DbBehavior.ok exampleInput =
      ⟨["Database configuration is incomplete. Check environment variables."],
        [], Except.ok ()⟩ :=
  spec_c6_incomplete_config cfgIncomplete DbBehavior.ok exampleInput
    exampleRow rfl extract_example

/-- C7: for every input (including `None` and malformed data) and every
behaviour of the datastore (connection, authentication or insert failure),
`store_results` returns normally — it never raises. -/
theorem spec_c7_never_raises :
    ∀ (cfg : Config) (db : DbBehavior) (v : JsonValue),
      (store_results cfg db v).result = Except.ok () :=
  fun cfg db v => store_results_result cfg db v

/-- C8: whatever the primer cycle does — including raising — its isolation
boundary returns normally, and the program's behaviour continues with
exactly the steady-state scheduler loop. -/
theorem spec_c8_primer_isolation :
    ∀ (cfg : Config) (p : SpawnOutcome × DbBehavior)
      (cycles : List (SpawnOutcome × DbBehavior)),
      (primerCatch (run_speed_test_job cfg p.2 p.1)).result = Except.ok () ∧
      main_program cfg p cycles =
        ⟨configBanner cfg :: "ISP Tracker Collector starting up." ::
          "Job scheduled to run every 5 minutes. Waiting for the first run..." ::
          ((primerCatch (run_speed_test_job cfg p.2 p.1)).logs ++
            (scheduler_loop cfg cycles).logs),
         (primerCatch (run_speed_test_job cfg p.2 p.1)).actions ++
           (scheduler_loop cfg cycles).actions,
         (scheduler_loop cfg cycles).result⟩ :=
  fun cfg p cycles => ⟨primerCatch_result _, main_program_decomp cfg p cycles⟩

/-- C9: for a truthy parsed value that is missing one of the five expected
fields, under a complete configuration, extraction fails before any
connection is acquired: the store step performs no database action and
logs the failure under the connecting-or-inserting error class. -/
theorem spec_c9_extract_before_connect :
    ∀ (cfg : Config) (db : DbBehavior) (v : JsonValue),
      pyFalsy v = false →
      configComplete cfg = true →
      fieldsPresent v = false →
      ∃ e : PyError, extract v = Except.error e ∧
        store_results cfg db v = ⟨[errorWhileLog e], [], Except.ok ()⟩ := by
  intro cfg db v h1 h2 h3
  cases hex : extract v with
  | ok row =>
      rw [extract_ok_fieldsPresent hex] at h3
      exact Bool.noConfusion h3
  | error e =>
      exact ⟨e, rfl, store_results_extract_error cfg db v e h1 h2 hex⟩

/-- Witness for C9 at the output missing its `server` field, with a
database that would refuse the connection if one were attempted. -/
theorem spec_c9_witness :
    ∃ e : PyError, extract missingServerInput = Except.error e ∧
      store_results cfgEx (DbBehavior.connectFails "refused")
          missingServerInput =
        ⟨[errorWhileLog e], [], Except.ok ()⟩ :=
  spec_c9_extract_before_connect cfgEx (DbBehavior.connectFails "refused")
    missingServerInput rfl rfl rfl

/-- C10: every falsy input to the store step — `None`, `{}`, `[]`, `0` or
`""` — is logged as "No data to store." and returned from immediately,
with no extraction, no database action and no exception. -/
theorem spec_c10_falsy_inputs :
    (∀ (cfg : Config) (db : DbBehavior) (v : JsonValue),
        pyFalsy v = true →
        store_results cfg db v = ⟨["No data to store."], [], Except.ok ()⟩) ∧
    pyFalsy JsonValue.null = true ∧
    pyFalsy (JsonValue.obj []) = true ∧
    pyFalsy (JsonValue.arr []) = true ∧
    pyFalsy (JsonValue.num 0) = true ∧
    pyFalsy (JsonValue.str "") = true :=
  ⟨fun cfg db v h => store_results_falsy cfg db v h, rfl, rfl, rfl, by decide,
    rfl⟩

/-- Witness for C10 at the empty JSON object. -/
theorem spec_c10_witness :
    store_results cfgEx DbBehavior.ok (JsonValue.obj []) =
      ⟨["No data to store."], [], Except.ok ()⟩ :=
  spec_c10_falsy_inputs.1 cfgEx DbBehavior.ok (JsonValue.obj []) rfl
